import Mathlib

/-!
Shallow embedding of the Pocket FM downloader core (src/api_handler.py,
src/download_manager.py) and proofs of the specification claims.

Python values flowing through the resolver are modelled by `JsonVal`;
Python truthiness by `truthy`; `dict.get(k, d)` by `JsonVal.getD`, which
raises (returns `.error ()`) on a non-dict receiver, exactly as the
attribute lookup `x.get` does in Python.
-/

/-- Model of a parsed JSON / Python value as it flows through the API handler. -/
inductive JsonVal where
  | null
  | bool (b : Bool)
  | num (n : Int)
  | str (s : String)
  | arr (xs : List JsonVal)
  | obj (fields : List (String × JsonVal))

/-- First-match association-list lookup, the model of Python dict key lookup. -/
def lookupField : List (String × JsonVal) → String → Option JsonVal
  | [], _ => none
  | (k, v) :: rest, key => if k = key then some v else lookupField rest key

/-- Python truthiness of a value (`if x:`): None, False, 0, "", [], {} are falsy. -/
def truthy : JsonVal → Bool
  | .null => false
  | .bool b => b
  | .num n => n != 0
  | .str s => !s.isEmpty
  | .arr xs => !xs.isEmpty
  | .obj fs => !fs.isEmpty

/-- Model of `x.get(key, default)`: succeeds on a dict, raises
(`AttributeError`) on any other receiver, as in Python. -/
def JsonVal.getD : JsonVal → String → JsonVal → Except Unit JsonVal
  | .obj fs, key, d => .ok ((lookupField fs key).getD d)
  | _, _, _ => .error ()

/-- The ordered response-shape extraction rules of `search_series`
(api_handler.py lines 111-116): `results`, then `data.series`, then
`data`, then `series`; the first truthy value wins, later rules are not
evaluated (Python `or` short-circuits). -/
def searchExtract (resp : JsonVal) : Except Unit JsonVal :=
  match resp.getD "results" (.arr []) with
  | .error e => .error e
  | .ok r1 =>
    if truthy r1 then .ok r1 else
    match resp.getD "data" (.obj []) with
    | .error e => .error e
    | .ok d =>
      match d.getD "series" (.arr []) with
      | .error e => .error e
      | .ok r2 =>
        if truthy r2 then .ok r2 else
        match resp.getD "data" (.arr []) with
        | .error e => .error e
        | .ok r3 =>
          if truthy r3 then .ok r3 else
          resp.getD "series" (.arr [])

/-- The ordered extraction rules of `get_episodes` (api_handler.py lines
166-170): `episodes`, then `data`, then `items`. -/
def episodesExtract (resp : JsonVal) : Except Unit JsonVal :=
  match resp.getD "episodes" (.arr []) with
  | .error e => .error e
  | .ok r1 =>
    if truthy r1 then .ok r1 else
    match resp.getD "data" (.arr []) with
    | .error e => .error e
    | .ok r2 =>
      if truthy r2 then .ok r2 else
      resp.getD "items" (.arr [])

/-- The extraction rule of `get_stream_url` (api_handler.py line 203):
`response.get("url") or response.get("stream_url")`. -/
def streamExtract (resp : JsonVal) : Except Unit JsonVal :=
  match resp.getD "url" .null with
  | .error e => .error e
  | .ok u =>
    if truthy u then .ok u else
    resp.getD "stream_url" .null

/-- The per-operation candidate loop shared by the four resolver
operations: for each candidate index, call `_make_request` (modelled by
the oracle `fetch`, which may raise or return any value; `None` is
`JsonVal.null`); if the response is truthy, run the extraction; return
the extracted value if truthy; on any exception or falsy outcome fall
through to the next candidate; `none` when all candidates are
exhausted. The `try`/`except` around each candidate in the source is the
reason an exception never escapes a single candidate. -/
def tryCandidates (fetch : Nat → Except Unit JsonVal)
    (extract : JsonVal → Except Unit JsonVal) : List Nat → Option JsonVal
  | [] => none
  | i :: rest =>
    match fetch i with
    | .error _ => tryCandidates fetch extract rest
    | .ok resp =>
      if truthy resp then
        match extract resp with
        | .error _ => tryCandidates fetch extract rest
        | .ok v =>
          if truthy v then some v else tryCandidates fetch extract rest
      else tryCandidates fetch extract rest

/-- `search_series` (api_handler.py lines 90-126): four candidate
endpoints, search extraction rules, `[]` when exhausted. -/
def search_series (fetch : Nat → Except Unit JsonVal) : JsonVal :=
  (tryCandidates fetch searchExtract [0, 1, 2, 3]).getD (.arr [])

/-- `get_series_details` (api_handler.py lines 128-146): three candidate
endpoints, the whole truthy response is the result, `None` when exhausted. -/
def get_series_details (fetch : Nat → Except Unit JsonVal) : Option JsonVal :=
  tryCandidates fetch Except.ok [0, 1, 2]

/-- `get_episodes` (api_handler.py lines 148-179): three candidate
endpoints, episodes extraction rules, `[]` when exhausted. -/
def get_episodes (fetch : Nat → Except Unit JsonVal) : JsonVal :=
  (tryCandidates fetch episodesExtract [0, 1, 2]).getD (.arr [])

/-- `get_stream_url` (api_handler.py lines 181-212): four candidate
endpoints, `url` / `stream_url` extraction, `None` when exhausted. -/
def get_stream_url (fetch : Nat → Except Unit JsonVal) : Option JsonVal :=
  tryCandidates fetch streamExtract [0, 1, 2, 3]

/-- A candidate outcome is usable when the fetch did not raise, the
response is truthy, and the extraction succeeds with a truthy value. -/
def usable (extract : JsonVal → Except Unit JsonVal) :
    Except Unit JsonVal → Bool
  | .error _ => false
  | .ok resp =>
    truthy resp &&
      (match extract resp with
       | .error _ => false
       | .ok v => truthy v)

/-- Model of `_rotate_url` (api_handler.py line 48): the cursor update
`current_url_index = (current_url_index + 1) % len(base_urls)` on a
registry of `n` hosts. Total for every `n > 0`; in Python `% n` with
`n ≥ 1` cannot divide by zero. -/
def rotate_url (n i : Nat) : Nat := (i + 1) % n

/-- Model of `_get_base_url` (api_handler.py lines 40-44): the cursor is
reset to 0 when out of range, then indexes the host list. -/
def get_base_url_index (n i : Nat) : Nat := if n ≤ i then 0 else i

/-- Outcome of one attempt of the retry loop in `_make_request`
(api_handler.py lines 65-86): either an HTTP response arrived with a
given status (and, for status 200, `response.json()` either parses or
raises), or the request raised `asyncio.TimeoutError`, or it raised some
other exception. -/
inductive AttemptOutcome where
  | http (status : Nat) (parse : Except Unit JsonVal)
  | timeoutErr
  | otherErr

/-- What one iteration of the retry loop does with its outcome:
return the parsed body (loop ends), rotate the endpoint and continue
with no sleep, sleep the given number of seconds and continue on the
same endpoint, or fall through to the next attempt with neither
rotation nor sleep. -/
inductive StepAction where
  | returnBody (j : JsonVal)
  | rotate
  | sleepSameEndpoint (secs : Nat)
  | passThrough

/-- The per-attempt dispatch of `_make_request` (api_handler.py lines
72-86): 200 returns the parsed body (a parse failure is caught by the
generic `except` and rotates); 404 rotates with no sleep; 429 and 503
sleep `retry_delay * (attempt + 1)` without rotating; any other status
falls through; `asyncio.TimeoutError` sleeps `retry_delay`; any other
exception rotates. -/
def attemptStep (retryDelay attempt : Nat) : AttemptOutcome → StepAction
  | .http status parse =>
    if status = 200 then
      match parse with
      | .ok j => .returnBody j
      | .error _ => .rotate
    else if status = 404 then .rotate
    else if status = 429 ∨ status = 503 then
      .sleepSameEndpoint (retryDelay * (attempt + 1))
    else .passThrough
  | .timeoutErr => .sleepSameEndpoint retryDelay
  | .otherErr => .rotate

/-- One HTTP response as seen by `download_file`: status code, the
`content-length` header with default 0 (api_handler.py line 229), the
sizes of the chunks served by `iter_chunked`, and an optional fault
position `failAt` modelling an exception raised during the chunk stream
before chunk `k` is written (caught at line 248, returning `False`). -/
structure HttpResponse where
  status : Nat
  contentLength : Nat
  chunks : List Nat
  failAt : Option Nat
deriving DecidableEq

/-- A file-system effect of `download_file` at the destination path. -/
inductive FileAction where
  | openFile
  | write (size : Nat)
deriving DecidableEq

/-- One invocation of the progress callback (api_handler.py line 240):
the running byte count and the advertised total. The percent argument
passed alongside is `(downloaded / total) * 100`, see
`ProgressCall.percent`. -/
structure ProgressCall where
  downloaded : Nat
  total : Nat
deriving DecidableEq

/-- The percent value passed to the callback for a given invocation,
`progress = (downloaded / total) * 100` (api_handler.py line 239). -/
def ProgressCall.percent (c : ProgressCall) : ℚ :=
  (c.downloaded : ℚ) / (c.total : ℚ) * 100

/-- The chunk loop of `download_file` (api_handler.py lines 234-240):
write each chunk, add its size to `downloaded`, and invoke the progress
callback only when a callback was supplied and `total_size > 0`. -/
def chunkLoop (total : Nat) (hasCb : Bool) :
    Nat → List Nat → List FileAction × List ProgressCall
  | _, [] => ([], [])
  | downloaded, c :: rest =>
    let d := downloaded + c
    let r := chunkLoop total hasCb d rest
    (FileAction.write c :: r.1,
     (if hasCb ∧ 0 < total then [⟨d, total⟩] else []) ++ r.2)

/-- `download_file` (api_handler.py lines 214-250): an exception from
`session.get` returns `False` with no file effect; a response with
status 200 or 206 opens the destination file and streams chunks until
done or until the injected stream fault, returning `True` exactly when
no fault occurred; any other status returns `False` without touching
the file. Result: (returned flag, file effects, callback invocations). -/
def download_file (resp : Except Unit HttpResponse) (hasCb : Bool) :
    Bool × List FileAction × List ProgressCall :=
  match resp with
  | .error _ => (false, [], [])
  | .ok r =>
    if r.status = 200 ∨ r.status = 206 then
      let processed := match r.failAt with
        | none => r.chunks
        | some k => r.chunks.take k
      let body := chunkLoop r.contentLength hasCb 0 processed
      (r.failAt.isNone, FileAction.openFile :: body.1, body.2)
    else (false, [], [])

/-- The throttle of the Dispatcher's `download_progress` callback
(download_manager.py lines 84-96), with wall-clock time in
milliseconds: starting from `last_update = 0`, a status-message edit is
attempted at a callback invocation occurring at time `t` exactly when
`t - last_update > 2` seconds, and `last_update` is then set to `t`.
Returns the times at which an edit is attempted. -/
def editTimes (last : Nat) : List Nat → List Nat
  | [] => []
  | t :: ts => if last + 2000 < t then t :: editTimes t ts else editTimes last ts

/-- The simulated transfer of the spec's throttling property: progress
events every 100 ms over 5 seconds, starting at loop time `T` ms. -/
def simTimes (T : Nat) : List Nat := (List.range 50).map (fun k => T + 100 * (k + 1))

/-- The simulated response for the throttling property: 200, a known
total of 5000 bytes, served in 50 chunks of 100 bytes, no fault. -/
def simResp : HttpResponse :=
  { status := 200, contentLength := 5000, chunks := List.replicate 50 100,
    failAt := none }

/-- The user-visible messages of `_process_item` (download_manager.py),
identified by their role; `failedNoStreamUrl` is the edit
"Failed: Could not get stream URL" (lines 70-73), `uploadFailedSavedLocally`
is the edit "Download complete but upload failed / File saved locally"
(lines 141-144), `genericError` is the edit "Error ..." of the outer
exception handler (lines 159-161). -/
inductive Msg where
  | initial
  | failedNoStreamUrl
  | downloadFailed
  | uploading
  | successComplete
  | uploadFailedSavedLocally
  | genericError
deriving DecidableEq

/-- An observable effect of `_process_item`: a message sent to the
requester, a status-message edit or deletion, the call into
`download_file`, the delivery call `send_audio`, or the cleanup
`os.remove` of the local artifact. Only successful effects are
recorded; a raising call records nothing. -/
inductive ItemAction where
  | sendMessage (m : Msg)
  | editStatus (m : Msg)
  | deleteStatus
  | downloadCall
  | sendAudio
  | removeFile
deriving DecidableEq

/-- Oracle for the external effects of one `_process_item` run: whether
each fallible external call raises, the resolver result, and the HTTP
response seen by `download_file`. Progress-callback edits are omitted
from the trace: they are wrapped in `try ... except: pass`
(download_manager.py lines 87-95) and never influence control flow. -/
structure ProcEnv where
  sendMessageFails : Bool
  streamUrl : Option JsonVal
  mkdirFails : Bool
  downloadResp : Except Unit HttpResponse
  editFails : Msg → Bool
  sendAudioFails : Bool
  deleteStatusFails : Bool
  sendSuccessFails : Bool
  removeFails : Bool

/-- The outer `except Exception` handler of `_process_item`
(download_manager.py lines 155-163) when `status_msg` exists: it tries
to edit the status message to a generic error and swallows a failure of
that edit. -/
def outerCatch (env : ProcEnv) : List ItemAction :=
  if env.editFails Msg.genericError then [] else [ItemAction.editStatus Msg.genericError]

/-- The `finally` cleanup of `_process_item` (download_manager.py lines
146-153): if the artifact exists, try `os.remove` and swallow any
failure. Returns (actions, whether the file still exists after). -/
def cleanupStep (env : ProcEnv) (fileOnDisk : Bool) : List ItemAction × Bool :=
  if fileOnDisk then
    if env.removeFails then ([], true) else ([ItemAction.removeFile], false)
  else ([], false)

/-- `_process_item` (download_manager.py lines 49-163), as the list of
observable effects plus whether the local artifact exists on disk when
the item is done. Mirrors the control flow: initial send; stream-URL
resolution with early return on a falsy URL; mkdir; `download_file`;
early return on download failure; the "uploading" edit; the inner
`try` around `send_audio` with its `except` edit and its `finally`
cleanup; the outer `except` with `if status_msg:` (no edit possible
when the very first send raised). -/
def process_item (env : ProcEnv) : List ItemAction × Bool :=
  if env.sendMessageFails then
    ([], false)
  else
    let tr0 := [ItemAction.sendMessage Msg.initial]
    let noStream : Bool := match env.streamUrl with
      | none => true
      | some u => !truthy u
    if noStream then
      if env.editFails Msg.failedNoStreamUrl then
        (tr0 ++ outerCatch env, false)
      else
        (tr0 ++ [ItemAction.editStatus Msg.failedNoStreamUrl], false)
    else if env.mkdirFails then
      (tr0 ++ outerCatch env, false)
    else
      let dl := download_file env.downloadResp true
      let onDisk := !dl.2.1.isEmpty
      let tr1 := tr0 ++ [ItemAction.downloadCall]
      if !dl.1 then
        if env.editFails Msg.downloadFailed then
          (tr1 ++ outerCatch env, onDisk)
        else
          (tr1 ++ [ItemAction.editStatus Msg.downloadFailed], onDisk)
      else if env.editFails Msg.uploading then
        (tr1 ++ outerCatch env, onDisk)
      else
        let tr2 := tr1 ++ [ItemAction.editStatus Msg.uploading]
        if env.sendAudioFails then
          if env.editFails Msg.uploadFailedSavedLocally then
            let c := cleanupStep env onDisk
            (tr2 ++ c.1 ++ outerCatch env, c.2)
          else
            let c := cleanupStep env onDisk
            (tr2 ++ [ItemAction.editStatus Msg.uploadFailedSavedLocally] ++ c.1, c.2)
        else
          let tr3 := tr2 ++ [ItemAction.sendAudio]
          if env.deleteStatusFails then
            let c := cleanupStep env onDisk
            (tr3 ++ c.1 ++ outerCatch env, c.2)
          else if env.sendSuccessFails then
            let c := cleanupStep env onDisk
            (tr3 ++ [ItemAction.deleteStatus] ++ c.1 ++ outerCatch env, c.2)
          else
            let c := cleanupStep env onDisk
            (tr3 ++ [ItemAction.deleteStatus, ItemAction.sendMessage Msg.successComplete] ++ c.1,
             c.2)

/-- What one iteration of the `process_queue` loop (download_manager.py
lines 37-47) observes: an item arrived (with the oracle for its
processing, and whether `queue.task_done()` raises), the 30-second
`wait_for` timeout expired, or some other queue-level exception was
raised. -/
inductive QueueEvent where
  | gotItem (env : ProcEnv) (taskDoneRaises : Bool)
  | timeoutExpired
  | queueError

/-- How one iteration of the `process_queue` loop ends: the loop resumes
waiting after sleeping the given number of seconds, or it terminates.
The source's `while True` with `except asyncio.TimeoutError: continue`
and `except Exception: sleep(5)` is modelled by which outcome each
event maps to. -/
inductive LoopOutcome where
  | resume (sleepSecs : Nat)
  | terminate
deriving DecidableEq

/-- One iteration of `process_queue` (download_manager.py lines 37-47):
a dequeued item is processed by `_process_item` (whose effects are the
second component), `task_done` raising is caught by the generic handler
(sleep 5), a timeout continues immediately, and any other queue-level
exception sleeps 5 seconds before the loop resumes. -/
def process_queue_step : QueueEvent → LoopOutcome × List ItemAction
  | .gotItem env taskDoneRaises =>
    (if taskDoneRaises then .resume 5 else .resume 0, (process_item env).1)
  | .timeoutExpired => (.resume 0, [])
  | .queueError => (.resume 5, [])

/-- An item whose download succeeds (200, 5 bytes in one chunk) and
whose delivery (`send_audio`) raises, with every other external call
succeeding: the claimed degraded-success scenario. -/
def c1Env : ProcEnv :=
  { sendMessageFails := false, streamUrl := some (.str "http://u"),
    mkdirFails := false,
    downloadResp := .ok { status := 200, contentLength := 5, chunks := [5],
                          failAt := none },
    editFails := fun _ => false, sendAudioFails := true,
    deleteStatusFails := false, sendSuccessFails := false,
    removeFails := false }

/-- An item whose stream-URL resolution yields `None`, with a reliable
notification channel. -/
def c3Env : ProcEnv :=
  { sendMessageFails := false, streamUrl := none, mkdirFails := false,
    downloadResp := .error (), editFails := fun _ => false,
    sendAudioFails := false, deleteStatusFails := false,
    sendSuccessFails := false, removeFails := false }

/-- An item whose processing fails at a mid-step (`mkdir` raises), to
exercise the outer per-item exception handler. -/
def c7ItemErrorEnv : ProcEnv :=
  { sendMessageFails := false, streamUrl := some (.str "http://u"),
    mkdirFails := true, downloadResp := .error (),
    editFails := fun _ => false, sendAudioFails := false,
    deleteStatusFails := false, sendSuccessFails := false,
    removeFails := false }

/-- A search response whose payload matches only the third-in-order
extraction rule of `search_series`: no `results`, no `data.series`, but
a truthy `data` value. -/
def c9SearchResp : JsonVal := .obj [("data", .obj [("genre", .str "x")])]

/-- An episodes response whose payload matches only the third-in-order
extraction rule of `get_episodes`: no `episodes`, no `data`, but a
truthy `items` list. -/
def c9EpisodesResp : JsonVal := .obj [("items", .arr [.str "e1"])]

theorem tryCandidates_exhausted (fetch : Nat → Except Unit JsonVal)
    (extract : JsonVal → Except Unit JsonVal) (l : List Nat)
    (h : ∀ i ∈ l, usable extract (fetch i) = false) :
    tryCandidates fetch extract l = none := by
  induction l with
  | nil => rfl
  | cons i rest ih =>
    have hi := h i (List.mem_cons_self i rest)
    have hrest : ∀ j ∈ rest, usable extract (fetch j) = false :=
      fun j hj => h j (List.mem_cons_of_mem _ hj)
    have htail := ih hrest
    cases hf : fetch i with
    | error e => simp [tryCandidates, hf, htail]
    | ok resp =>
      rw [hf] at hi
      by_cases htr : truthy resp = true
      · cases hx : extract resp with
        | error e => simp [tryCandidates, hf, htr, hx, htail]
        | ok v =>
          have hv : truthy v = false := by
            simpa [usable, htr, hx] using hi
          simp [tryCandidates, hf, htr, hx, hv, htail]
      · simp [tryCandidates, hf, htr, htail]

theorem rotate_url_iterate (n : Nat) (hn : 0 < n) :
    ∀ (k i : Nat), i < n → (rotate_url n)^[k] i = (i + k) % n := by
  intro k
  induction k with
  | zero =>
    intro i hi
    simp [Nat.mod_eq_of_lt hi]
  | succ k ih =>
    intro i hi
    rw [Function.iterate_succ_apply]
    have h1 : rotate_url n i = (i + 1) % n := rfl
    rw [h1, ih _ (Nat.mod_lt _ hn), Nat.mod_add_mod]
    congr 1
    omega

theorem chunkLoop_total_zero (hasCb : Bool) :
    ∀ (d : Nat) (chunks : List Nat), (chunkLoop 0 hasCb d chunks).2 = [] := by
  intro d chunks
  induction chunks generalizing d with
  | nil => rfl
  | cons c rest ih => simp [chunkLoop, ih]

theorem editTimes_length_le (ts : List Nat) :
    ∀ (last M : Nat), (∀ t ∈ ts, t ≤ M) →
      (editTimes last ts).length ≤ (M - last) / 2000 := by
  induction ts with
  | nil =>
    intro last M h
    simp [editTimes]
  | cons t ts ih =>
    intro last M h
    have ht : t ≤ M := h t (List.mem_cons_self t ts)
    have hrest : ∀ x ∈ ts, x ≤ M := fun x hx => h x (List.mem_cons_of_mem _ hx)
    by_cases hc : last + 2000 < t
    · rw [editTimes, if_pos hc]
      have h2 := ih t M hrest
      have key : (M - t) / 2000 + 1 ≤ (M - last) / 2000 := by
        have h3 : M - t + 2000 ≤ M - last := by omega
        calc (M - t) / 2000 + 1 = (M - t + 2000) / 2000 := by
              rw [Nat.add_div_right _ (by norm_num)]
          _ ≤ (M - last) / 2000 := Nat.div_le_div_right h3
      simp only [List.length_cons]
      omega
    · rw [editTimes, if_neg hc]
      exact ih last M hrest

theorem editTimes_length_le_window (ts : List Nat) :
    ∀ (last m M : Nat), (∀ t ∈ ts, m ≤ t ∧ t ≤ M) →
      (editTimes last ts).length ≤ (M - m) / 2000 + 1 := by
  induction ts with
  | nil =>
    intro last m M h
    simp [editTimes]
  | cons t ts ih =>
    intro last m M h
    have ht := h t (List.mem_cons_self t ts)
    have hrest : ∀ x ∈ ts, m ≤ x ∧ x ≤ M :=
      fun x hx => h x (List.mem_cons_of_mem _ hx)
    by_cases hc : last + 2000 < t
    · rw [editTimes, if_pos hc]
      have h2 := editTimes_length_le ts t M (fun x hx => (hrest x hx).2)
      have h3 : (M - t) / 2000 ≤ (M - m) / 2000 :=
        Nat.div_le_div_right (by omega)
      simp only [List.length_cons]
      omega
    · rw [editTimes, if_neg hc]
      exact ih last m M hrest

theorem truthy_resp_of_getD_arr (resp v : JsonVal) (k : String)
    (h : resp.getD k (.arr []) = .ok v) (hv : truthy v = true) :
    truthy resp = true := by
  cases resp with
  | obj fs =>
    cases fs with
    | nil =>
      simp [JsonVal.getD, lookupField] at h
      rw [← h] at hv
      simp [truthy] at hv
    | cons p rest => simp [truthy]
  | null => simp [JsonVal.getD] at h
  | bool b => simp [JsonVal.getD] at h
  | num n => simp [JsonVal.getD] at h
  | str s => simp [JsonVal.getD] at h
  | arr xs => simp [JsonVal.getD] at h

theorem downloadCall_not_mem_outerCatch (env : ProcEnv) :
    ItemAction.downloadCall ∉ outerCatch env := by
  unfold outerCatch
  split <;> simp

/-- C8: endpoint rotation is circular: on an `n`-host registry with the
cursor at a valid position `i`, `n` consecutive `_rotate_url` calls
return the cursor to `i`; and on a single-element registry a rotation
leaves the cursor unchanged. `rotate_url` is a total function for every
`n > 0`, the model of "never errors, no division by zero". -/
theorem c8_rotation_circular (n i : Nat) (hn : 0 < n) (hi : i < n) :
    (rotate_url n)^[n] i = i ∧ (n = 1 → rotate_url n i = i) := by
  constructor
  · rw [rotate_url_iterate n hn n i hi, Nat.add_mod_right]
    exact Nat.mod_eq_of_lt hi
  · intro h1
    subst h1
    have h0 : i = 0 := by omega
    subst h0
    rfl

theorem c8_rotation_circular_witness :
    (rotate_url 3)^[3] 1 = 1 ∧ (3 = 1 → rotate_url 3 1 = 1) :=
  c8_rotation_circular 3 1 (by norm_num) (by norm_num)

/-- C4: the per-attempt dispatch of the `_make_request` retry loop:
HTTP 200 parses the body and returns it; HTTP 404 rotates the endpoint
with no backoff sleep; HTTP 429 or 503 sleeps
`retry_delay * (attempt + 1)` and retries the same endpoint without
rotating; `asyncio.TimeoutError` sleeps `retry_delay`; any other
exception class rotates the endpoint and continues. -/
theorem c4_retry_dispatch (rd attempt status : Nat)
    (p : Except Unit JsonVal) (j : JsonVal) :
    (p = .ok j → attemptStep rd attempt (.http 200 p) = .returnBody j) ∧
    attemptStep rd attempt (.http 404 p) = .rotate ∧
    (status = 429 ∨ status = 503 →
      attemptStep rd attempt (.http status p) =
        .sleepSameEndpoint (rd * (attempt + 1))) ∧
    attemptStep rd attempt .timeoutErr = .sleepSameEndpoint rd ∧
    attemptStep rd attempt .otherErr = .rotate := by
  refine ⟨?_, by simp [attemptStep], ?_, rfl, rfl⟩
  · rintro rfl
    simp [attemptStep]
  · rintro (rfl | rfl) <;> simp [attemptStep]

theorem c4_retry_dispatch_witness :
    attemptStep 2 0 (.http 200 (.ok .null)) = .returnBody .null ∧
    attemptStep 2 0 (.http 404 (.ok .null)) = .rotate ∧
    attemptStep 2 0 (.http 429 (.ok .null)) = .sleepSameEndpoint (2 * (0 + 1)) ∧
    attemptStep 2 0 .timeoutErr = .sleepSameEndpoint 2 ∧
    attemptStep 2 0 .otherErr = .rotate :=
  ⟨(c4_retry_dispatch 2 0 429 (.ok .null) .null).1 rfl,
   (c4_retry_dispatch 2 0 429 (.ok .null) .null).2.1,
   (c4_retry_dispatch 2 0 429 (.ok .null) .null).2.2.1 (Or.inl rfl),
   (c4_retry_dispatch 2 0 429 (.ok .null) .null).2.2.2.1,
   (c4_retry_dispatch 2 0 429 (.ok .null) .null).2.2.2.2⟩

/-- C10: when the initial response status is neither 200 nor 206,
`download_file` returns `False` with no file effect at the destination:
the file is never opened and never written. -/
theorem c10_bad_status_no_file (r : HttpResponse) (hasCb : Bool)
    (h200 : r.status ≠ 200) (h206 : r.status ≠ 206) :
    download_file (.ok r) hasCb = (false, [], []) := by
  simp [download_file, h200, h206]

theorem c10_bad_status_no_file_witness :
    download_file (.ok ⟨404, 1000, [7], none⟩) true = (false, [], []) :=
  c10_bad_status_no_file ⟨404, 1000, [7], none⟩ true (by norm_num) (by norm_num)

/-- C5, counterexample: a download whose server advertises no total
size (`content-length` absent, total 0) serving two 100-byte chunks:
the download succeeds, the file is written, and the progress callback
is invoked zero times — not invoked with `total = 0` as the claim
states, because the guard at api_handler.py line 238 requires
`total_size > 0`. -/
theorem c5_counterexample :
    download_file (.ok ⟨200, 0, [100, 100], none⟩) true =
      (true, [.openFile, .write 100, .write 100], []) := by
  rfl

/-- C5, amended: when the server does not advertise a total size
(total 0), the Transfer Engine never invokes the progress callback;
the callback is only invoked when the advertised total is positive. -/
theorem c5_amended_no_callback_when_total_unknown (resp : HttpResponse)
    (hasCb : Bool) (h : resp.contentLength = 0) :
    (download_file (.ok resp) hasCb).2.2 = [] := by
  simp only [download_file]
  split
  · simp [h, chunkLoop_total_zero]
  · rfl

theorem c5_amended_no_callback_when_total_unknown_witness :
    (download_file (.ok ⟨200, 0, [100, 100], none⟩) true).2.2 = [] :=
  c5_amended_no_callback_when_total_unknown ⟨200, 0, [100, 100], none⟩ true rfl

/-- C6, counterexample: for the simulated transfer of the claim
(progress events every 100 ms over 5 seconds: 50 chunks of 100 bytes,
total 5000 known), the Transfer Engine invokes the progress callback
once per chunk — 50 times, not at most 3: the throttle is not in
`download_file`, whose loop calls the callback on every chunk. -/
theorem c6_counterexample :
    (download_file (.ok simResp) true).2.2.length = 50 ∧
    ¬ (download_file (.ok simResp) true).2.2.length ≤ 3 := by
  have h : (download_file (.ok simResp) true).2.2.length = 50 := by rfl
  exact ⟨h, by omega⟩

/-- C6, amended: the Transfer Engine invokes the callback on every
chunk, and its final invocation reports 100% when the total size is
known; the 2-second wall-clock throttle lives in the Dispatcher's
`download_progress` callback, which edits the status message at most
once per interval — for the simulated transfer (events every 100 ms
over 5 s, any loop-clock origin `T`), at most 3 edits are attempted. -/
theorem c6_amended_throttle_in_dispatcher (T : Nat) :
    (editTimes 0 (simTimes T)).length ≤ 3 ∧
    (download_file (.ok simResp) true).2.2.getLast? = some ⟨5000, 5000⟩ ∧
    ProgressCall.percent ⟨5000, 5000⟩ = 100 := by
  refine ⟨?_, by rfl, by norm_num [ProgressCall.percent]⟩
  have hb : ∀ t ∈ simTimes T, T + 100 ≤ t ∧ t ≤ T + 5000 := by
    intro t ht
    simp only [simTimes, List.mem_map, List.mem_range] at ht
    obtain ⟨k, hk, rfl⟩ := ht
    omega
  have hlen := editTimes_length_le_window (simTimes T) 0 (T + 100) (T + 5000) hb
  have hsub : T + 5000 - (T + 100) = 4900 := by omega
  rw [hsub] at hlen
  norm_num at hlen
  exact hlen

theorem c6_amended_throttle_in_dispatcher_witness :
    (editTimes 0 (simTimes 0)).length ≤ 3 ∧
    (download_file (.ok simResp) true).2.2.getLast? = some ⟨5000, 5000⟩ ∧
    ProgressCall.percent ⟨5000, 5000⟩ = 100 :=
  c6_amended_throttle_in_dispatcher 0

/-- C2: when every candidate of an operation is exhausted without
usable data — the fetch raised, or the response was falsy, or
extraction raised or yielded only falsy values — each Catalog Resolver
operation returns its explicit unresolved result: `[]` for
`search_series` and `get_episodes`, `None` for `get_series_details` and
`get_stream_url`. The operations are total functions of the per-candidate
outcome oracle (every exception inside a candidate is caught by the
per-candidate `try`/`except` mirrored in `tryCandidates`), so no
exception can propagate past the operation boundary. -/
theorem c2_exhausted_soft_failure
    (fS fD fE fU : Nat → Except Unit JsonVal)
    (hS : ∀ i ∈ [0, 1, 2, 3], usable searchExtract (fS i) = false)
    (hD : ∀ i ∈ [0, 1, 2], usable Except.ok (fD i) = false)
    (hE : ∀ i ∈ [0, 1, 2], usable episodesExtract (fE i) = false)
    (hU : ∀ i ∈ [0, 1, 2, 3], usable streamExtract (fU i) = false) :
    search_series fS = .arr [] ∧ get_series_details fD = none ∧
    get_episodes fE = .arr [] ∧ get_stream_url fU = none := by
  refine ⟨?_, ?_, ?_, ?_⟩
  · unfold search_series
    rw [tryCandidates_exhausted fS searchExtract _ hS]
    rfl
  · exact tryCandidates_exhausted fD Except.ok _ hD
  · unfold get_episodes
    rw [tryCandidates_exhausted fE episodesExtract _ hE]
    rfl
  · exact tryCandidates_exhausted fU streamExtract _ hU

theorem c2_exhausted_soft_failure_witness :
    search_series (fun _ => .error ()) = .arr [] ∧
    get_series_details (fun _ => .error ()) = none ∧
    get_episodes (fun _ => .error ()) = .arr [] ∧
    get_stream_url (fun _ => .error ()) = none :=
  c2_exhausted_soft_failure _ _ _ _
    (fun _ _ => rfl) (fun _ _ => rfl) (fun _ _ => rfl) (fun _ _ => rfl)

/-- C9: extraction rules are tried in their listed order and the first
truthy value wins: for a search response where `results` and
`data.series` evaluate to falsy values and the third rule `data` yields
a truthy value, `search_series` returns that value; likewise for an
episodes response where `episodes` and `data` are falsy and the third
rule `items` is truthy, `get_episodes` returns the `items` value. -/
theorem c9_third_rule_wins
    (resp r1 d r2 r3 : JsonVal)
    (h1 : resp.getD "results" (.arr []) = .ok r1) (t1 : truthy r1 = false)
    (h2 : resp.getD "data" (.obj []) = .ok d)
    (h2b : d.getD "series" (.arr []) = .ok r2) (t2 : truthy r2 = false)
    (h3 : resp.getD "data" (.arr []) = .ok r3) (t3 : truthy r3 = true)
    (eresp er1 er2 ev : JsonVal)
    (e1 : eresp.getD "episodes" (.arr []) = .ok er1) (s1 : truthy er1 = false)
    (e2 : eresp.getD "data" (.arr []) = .ok er2) (s2 : truthy er2 = false)
    (e3 : eresp.getD "items" (.arr []) = .ok ev) (s3 : truthy ev = true) :
    searchExtract resp = .ok r3 ∧ search_series (fun _ => .ok resp) = r3 ∧
    episodesExtract eresp = .ok ev ∧ get_episodes (fun _ => .ok eresp) = ev := by
  have hx : searchExtract resp = .ok r3 := by
    simp [searchExtract, h1, t1, h2, h2b, t2, h3, t3]
  have hex : episodesExtract eresp = .ok ev := by
    simp [episodesExtract, e1, s1, e2, s2, e3]
  have hresp : truthy resp = true := truthy_resp_of_getD_arr resp r3 "data" h3 t3
  have heresp : truthy eresp = true := truthy_resp_of_getD_arr eresp ev "items" e3 s3
  refine ⟨hx, ?_, hex, ?_⟩
  · simp [search_series, tryCandidates, hresp, hx, t3]
  · simp [get_episodes, tryCandidates, heresp, hex, s3]

theorem c9_third_rule_wins_witness :
    searchExtract c9SearchResp = .ok (.obj [("genre", .str "x")]) ∧
    search_series (fun _ => .ok c9SearchResp) = .obj [("genre", .str "x")] ∧
    episodesExtract c9EpisodesResp = .ok (.arr [.str "e1"]) ∧
    get_episodes (fun _ => .ok c9EpisodesResp) = .arr [.str "e1"] :=
  c9_third_rule_wins c9SearchResp (.arr []) (.obj [("genre", .str "x")])
    (.arr []) (.obj [("genre", .str "x")]) rfl rfl rfl rfl rfl rfl rfl
    c9EpisodesResp (.arr []) (.arr []) (.arr [.str "e1"]) rfl rfl rfl rfl rfl rfl

/-- C3: for an item whose stream-URL resolution yields `None`, the
Dispatcher never invokes the Transfer Engine — no `download_file` call
appears in the item's effects — and, when the notification channel
works (the initial send and the failure edit do not raise), the
requester receives the "Failed: Could not get stream URL" message and
the item stops there. -/
theorem c3_unresolved_no_download (env : ProcEnv)
    (h : env.streamUrl = none) :
    ItemAction.downloadCall ∉ (process_item env).1 ∧
    (env.sendMessageFails = false →
      env.editFails Msg.failedNoStreamUrl = false →
      ItemAction.editStatus Msg.failedNoStreamUrl ∈ (process_item env).1) := by
  constructor
  · by_cases hsm : env.sendMessageFails = true
    · simp [process_item, hsm]
    · have hsm' : env.sendMessageFails = false := by simpa using hsm
      have hoc := downloadCall_not_mem_outerCatch env
      by_cases hef : env.editFails Msg.failedNoStreamUrl = true
      · simp [process_item, h, hsm', hef, hoc]
      · have hef' : env.editFails Msg.failedNoStreamUrl = false := by
          simpa using hef
        simp [process_item, h, hsm', hef']
  · intro h1 h2
    simp [process_item, h, h1, h2]

theorem c3_unresolved_no_download_witness :
    ItemAction.downloadCall ∉ (process_item c3Env).1 ∧
    ItemAction.editStatus Msg.failedNoStreamUrl ∈ (process_item c3Env).1 :=
  ⟨(c3_unresolved_no_download c3Env rfl).1,
   (c3_unresolved_no_download c3Env rfl).2 rfl rfl⟩

/-- C1: in the claimed scenario — download succeeds, delivery
(`send_audio`) raises — the item does report the degraded-success state
("Download complete but upload failed ... File saved locally", the
`uploadFailedSavedLocally` edit, distinct from the outright-failed
messages), but the `finally` block of download_manager.py lines 146-153
then removes the artifact: at the end of the item the file no longer
exists on disk, contradicting the claim (and the message's own text). -/
theorem c1_artifact_deleted_on_delivery_failure :
    process_item c1Env =
      ([ItemAction.sendMessage Msg.initial, ItemAction.downloadCall,
        ItemAction.editStatus Msg.uploading,
        ItemAction.editStatus Msg.uploadFailedSavedLocally,
        ItemAction.removeFile], false) := by
  rfl

/-- C7: no event of one `process_queue` iteration terminates the loop:
a dequeued item is processed by the total function `process_item`
(every per-item error is caught at the item boundary — here, an item
whose `mkdir` step raises still produces a reported generic-error
edit), a wait timeout continues immediately, and a queue-level
exception (including `task_done` raising) sleeps the fixed 5 seconds
before the loop resumes. -/
theorem c7_loop_never_terminates :
    (∀ ev : QueueEvent, (process_queue_step ev).1 ≠ LoopOutcome.terminate) ∧
    (process_queue_step QueueEvent.queueError).1 = LoopOutcome.resume 5 ∧
    (process_queue_step QueueEvent.timeoutExpired).1 = LoopOutcome.resume 0 ∧
    (∀ (env : ProcEnv) (td : Bool),
      (process_queue_step (QueueEvent.gotItem env td)).1 =
        LoopOutcome.resume (if td then 5 else 0)) ∧
    ItemAction.editStatus Msg.genericError ∈
      (process_queue_step (QueueEvent.gotItem c7ItemErrorEnv false)).2 := by
  refine ⟨?_, rfl, rfl, ?_, ?_⟩
  · intro ev
    cases ev with
    | gotItem env td => cases td <;> simp [process_queue_step]
    | timeoutExpired => simp [process_queue_step]
    | queueError => simp [process_queue_step]
  · intro env td
    cases td <;> rfl
  · decide

theorem c7_loop_never_terminates_witness :
    (process_queue_step QueueEvent.queueError).1 ≠ LoopOutcome.terminate ∧
    (process_queue_step (QueueEvent.gotItem c7ItemErrorEnv false)).1 =
      LoopOutcome.resume 0 :=
  ⟨c7_loop_never_terminates.1 QueueEvent.queueError,
   c7_loop_never_terminates.2.2.2.1 c7ItemErrorEnv false⟩
